import Mathlib

/-!
Shallow embedding of `src/bot.py`: a two-stage harvester that fetches a
statistical-agency metadata document, flattens designated sub-trees into
tables (`extrair_lista_de_metadados`), normalizes per-variable numeric
series (`processar_dados_numericos`), and persists the tables as parquet
files (`gravar_arquivo_parquet`), orchestrated by
`orquestrar_captura_metadados`, `orquestrar_captura_dados_numericos` and
`main`.  Network and disk are external collaborators and enter the
embedding as explicit oracle parameters; everything the Python code
computes is translated statement by statement below.
-/

/-- A JSON value as decoded by `response.json()` in `capturar_dados_api`.
Python `None` is `null`; objects keep key order, like Python dicts. -/
inductive Json where
  | null : Json
  | bool : Bool → Json
  | num : Int → Json
  | str : String → Json
  | arr : List Json → Json
  | obj : List (String × Json) → Json

/-- First-match lookup in an ordered association list of object fields
(Python dict keys are unique, so first-match agrees with dict lookup). -/
def objGet : List (String × Json) → String → Option Json
  | [], _ => none
  | (k', v) :: rest, k => if k' = k then some v else objGet rest k

/-- Python `dict.get(k)` with its default of `None`: the stored value, or
`null` (Python `None`) when the key is absent. -/
def dictGet (fields : List (String × Json)) (k : String) : Json :=
  (objGet fields k).getD Json.null

/-- Python truthiness of a decoded JSON value, as tested by
`if not dados_json_meta:` and `if dados_numericos_json:`. -/
def truthy : Json → Bool
  | Json.null => false
  | Json.bool b => b
  | Json.num n => n != 0
  | Json.str s => !s.isEmpty
  | Json.arr l => !l.isEmpty
  | Json.obj l => !l.isEmpty

/-- `isinstance(item, str)`. -/
def isStr : Json → Bool
  | Json.str _ => true
  | _ => false

/-- `isinstance(item, dict)` (the shape taken by `pd.DataFrame` records). -/
def isObj : Json → Bool
  | Json.obj _ => true
  | _ => false

/-- One cell of a pandas DataFrame: a JSON value, or the NaN left where a
record lacks one of the table's keys. -/
inductive Cell where
  | val : Json → Cell
  | missing : Cell

/-- A pandas DataFrame: ordered column labels (labels are arbitrary values
after a `rename`) and rows in source order. -/
structure Table where
  cols : List Json
  rows : List (List Cell)

/-- `pd.DataFrame()`. -/
def emptyTable : Table := ⟨[], []⟩

/-- pandas `DataFrame.empty`: true when either axis has length zero. -/
def Table.isEmptyDF (t : Table) : Bool := t.rows.isEmpty || t.cols.isEmpty

/-- The keys of a JSON object, in insertion order (empty for non-objects). -/
def keysOf : Json → List String
  | Json.obj fs => fs.map Prod.fst
  | _ => []

/-- Accumulate keys not yet seen, preserving first-seen order — the way
pandas collects the column index from a list of records. -/
def addKeys (acc : List String) (ks : List String) : List String :=
  ks.foldl (fun a k => if k ∈ a then a else a ++ [k]) acc

/-- The union of the keys of a list of records, in first-seen order. -/
def keysUnion (items : List Json) : List String :=
  items.foldl (fun acc it => addKeys acc (keysOf it)) []

/-- The cell a record contributes under column key `k`: its stored value,
or NaN when the key is absent from the record. -/
def cellOf : Json → String → Cell
  | Json.obj fs, k =>
    match objGet fs k with
    | some v => Cell.val v
    | none => Cell.missing
  | _, _ => Cell.missing

/-- `pd.DataFrame(items)` for a list of records (dicts): one column per
distinct key in first-seen order, rows in source order, NaN for gaps. -/
def pdRecords (items : List Json) : Table :=
  ⟨(keysUnion items).map Json.str,
   items.map (fun it => (keysUnion items).map (fun k => cellOf it k))⟩

/-- Result of running one of the Python helpers: a DataFrame, an uncaught
exception, or a pandas behaviour that no call site of this repository
reaches (tagged with a description and left abstract). -/
inductive PyOutcome where
  | table : Table → PyOutcome
  | attributeError : PyOutcome
  | indexError : PyOutcome
  | unmodelled : String → PyOutcome

/-- Python `name.replace('s', '')`: removes every occurrence of the
lowercase letter `s` (uppercase `S` is untouched). -/
def pyReplaceS (s : String) : String :=
  (s.toList.filter (fun c => c ≠ 's')).asString

/-- Python `str.capitalize()`: first character uppercased, every remaining
character lowercased (ASCII case maps, which covers the keys in use). -/
def pyCapitalize (s : String) : String :=
  match s.toList with
  | [] => ""
  | c :: cs => (c.toUpper :: cs.map Char.toLower).asString

/-- The walk of the `for chave in caminho_chaves:` loop of
`extrair_lista_de_metadados`: each step runs `dados_atuais.get(chave)`
(an `AttributeError` when `dados_atuais` is not a dict) and returns early
with an empty DataFrame (`Except.ok none`) when the result is `None` —
which happens both when the key is absent and when it stores `null`. -/
def navegar : Json → List String → Except Unit (Option Json)
  | cur, [] => Except.ok (some cur)
  | cur, k :: rest =>
    match cur with
    | Json.obj fields =>
      match dictGet fields k with
      | Json.null => Except.ok none
      | v => navegar v rest
    | _ => Except.error ()

/-- `extrair_lista_de_metadados(dados_json, caminho_chaves)`: walks the
document along the key path, requires the terminal value to be a
non-empty list, and builds either a single named column (all-string
list, name = `caminho_chaves[-1].replace('s','').capitalize()`) or a
records DataFrame (list of dicts).  A non-empty list that is neither
all-strings nor all-dicts is handed to `pd.DataFrame` down a leg no call
site reaches; it is tagged `unmodelled`. -/
def extrair_lista_de_metadados (dados_json : Json) (caminho_chaves : List String) : PyOutcome :=
  match navegar dados_json caminho_chaves with
  | Except.error _ => PyOutcome.attributeError
  | Except.ok none => PyOutcome.table emptyTable
  | Except.ok (some v) =>
    match v with
    | Json.arr items =>
      if items.isEmpty then PyOutcome.table emptyTable
      else if items.all isStr then
        match caminho_chaves.getLast? with
        | some k =>
          PyOutcome.table
            ⟨[Json.str (pyCapitalize (pyReplaceS k))],
             items.map (fun it => [Cell.val it])⟩
        | none => PyOutcome.indexError
      else if items.all isObj then PyOutcome.table (pdRecords items)
      else PyOutcome.unmodelled "pd.DataFrame on a mixed list"
    | _ => PyOutcome.table emptyTable

/-- `df.rename(columns=m)`: a string label present in `m` becomes the
mapped value; every other label is untouched. -/
def renameLabel (m : List (String × Json)) : Json → Json
  | Json.str k => (objGet m k).getD (Json.str k)
  | label => label

/-- `processar_dados_numericos(json_data)`: fewer than two elements give
an empty DataFrame; otherwise element 0 is the rename mapping and
elements 1..N are the records.  Element 0 failing to be a dict, or the
records failing to all be dicts, are legs no call site of this
repository reaches; they are tagged `unmodelled`. -/
def processar_dados_numericos (json_data : List Json) : PyOutcome :=
  match json_data with
  | [] => PyOutcome.table emptyTable
  | [_] => PyOutcome.table emptyTable
  | m0 :: rest =>
    if rest.all isObj then
      match m0 with
      | Json.obj m =>
        PyOutcome.table
          ⟨((pdRecords rest).cols).map (renameLabel m), (pdRecords rest).rows⟩
      | _ => PyOutcome.unmodelled "df.rename with a non-mapping mapper"
    else PyOutcome.unmodelled "pd.DataFrame on a non-record list"

/-- The output directory constant `PASTA_SAIDA`. -/
def PASTA_SAIDA : String := "saida_dados"

/-- `os.path.join` for the two-component paths this program builds. -/
def osJoin (pasta nome : String) : String := pasta ++ "/" ++ nome

/-- The on-disk state: parquet files by path, newest write first. -/
def FS : Type := List (String × Table)

/-- Reading a parquet file back (`pd.read_parquet`): the most recent
table written at that path, if any. -/
def lookupFile : FS → String → Option Table
  | [], _ => none
  | (p, t) :: rest, q => if p = q then some t else lookupFile rest q

/-- What one call to `gravar_arquivo_parquet` reports: a skip for an
empty DataFrame, a successful write, or a caught write error. -/
inductive GravarOutcome where
  | skip : String → GravarOutcome
  | written : String → GravarOutcome
  | writeError : String → GravarOutcome

/-- `gravar_arquivo_parquet(df, nome_arquivo, pasta)`: an empty DataFrame
is skipped with a log line and no disk access; otherwise the table is
written to `pasta/nome_arquivo`, with `to_parquet` failures (modelled by
the `diskFails` oracle) caught and reported, never raised. -/
def gravar_arquivo_parquet (diskFails : String → Bool) (df : Table)
    (nome_arquivo pasta : String) (fs : FS) : FS × GravarOutcome :=
  if df.isEmptyDF then (fs, GravarOutcome.skip nome_arquivo)
  else
    let caminho := osJoin pasta nome_arquivo
    if diskFails caminho then (fs, GravarOutcome.writeError caminho)
    else ((caminho, df) :: fs, GravarOutcome.written caminho)

/-- Python `f"{x}"` on the scalar values this program interpolates into
URLs and file names.  Containers are not interpolated by any call site
that the claims exercise; they get a placeholder tag. -/
def pyStr : Json → String
  | Json.str s => s
  | Json.num n => toString n
  | Json.bool true => "True"
  | Json.bool false => "False"
  | Json.null => "None"
  | Json.arr _ => "<list repr>"
  | Json.obj _ => "<dict repr>"

/-- `f"{x}"` on a DataFrame cell: NaN prints as `nan`. -/
def pyStrCell : Cell → String
  | Cell.val j => pyStr j
  | Cell.missing => "nan"

/-- Observable steps of a pipeline run, in execution order. -/
inductive Event where
  | fetchFail : String → Event
  | fetched : String → Event
  | skippedFalsy : String → Event
  | wrote : GravarOutcome → Event

/-- The five `(file name, key path)` pairs of `tabelas_para_extrair`. -/
def tabelas_para_extrair : List (String × List String) :=
  [("variaveis.parquet", ["Variaveis"]),
   ("unidades_de_medida.parquet", ["UnidadesDeMedida"]),
   ("periodos.parquet", ["Periodos", "Periodos"]),
   ("conjuntos_periodos.parquet", ["Periodos", "Conjuntos"]),
   ("notas.parquet", ["Notas"])]

/-- The extraction loop of `orquestrar_captura_metadados`: one
`extrair_lista_de_metadados` + `gravar_arquivo_parquet` per pair.  The
Boolean is true when an extraction raised, which aborts the loop (the
exception propagates). -/
def rodarExtracoes (diskFails : String → Bool) (doc : Json) :
    List (String × List String) → FS → FS × List Event × Bool
  | [], fs => (fs, [], false)
  | (nome, caminho) :: rest, fs =>
    match extrair_lista_de_metadados doc caminho with
    | PyOutcome.table t =>
      let w := gravar_arquivo_parquet diskFails t nome PASTA_SAIDA fs
      let r := rodarExtracoes diskFails doc rest w.1
      (r.1, Event.wrote w.2 :: r.2.1, r.2.2)
    | _ => (fs, [], true)

/-- The result of stage 1: final disk state, events, and either the
metadata document (`ok (some doc)`), a normal `None` return (`ok none`),
or an uncaught exception (`error`). -/
structure Stage1Result where
  fs : FS
  events : List Event
  doc : Except Unit (Option Json)

/-- `orquestrar_captura_metadados()`: the network fetch of the fixed
metadata URL is the oracle value `fetchMeta` (`none` models the `None`
that `capturar_dados_api` returns on a request or decode failure).  A
falsy decoded value returns `None` before any extraction; otherwise the
five extractions run and the document itself is returned. -/
def orquestrar_captura_metadados (fetchMeta : Option Json)
    (diskFails : String → Bool) (fs : FS) : Stage1Result :=
  match fetchMeta with
  | none => ⟨fs, [], Except.ok none⟩
  | some j =>
    if truthy j then
      let r := rodarExtracoes diskFails j tabelas_para_extrair fs
      ⟨r.1, r.2.1, if r.2.2 then Except.error () else Except.ok (some j)⟩
    else ⟨fs, [], Except.ok none⟩

/-- `variavel[k]` on one row of the variables DataFrame: positional
lookup of the first column whose label is the string `k`; a missing
label raises `KeyError` (modelled as `error`). -/
def colValue (cols : List Json) (row : List Cell) (k : String) : Except Unit Cell :=
  match cols.findIdx? (fun c =>
      match c with
      | Json.str s => s == k
      | _ => false) with
  | some i =>
    match row[i]? with
    | some c => Except.ok c
    | none => Except.error ()
  | none => Except.error ()

/-- The numeric-data URL of `orquestrar_captura_dados_numericos`, built
from the table identifier and the `Id` and `DecimaisApresentacao` cells
of one variable row. -/
def urlDados (idTab : String) (cid cdec : Cell) : String :=
  "https://apisidra.ibge.gov.br/values/t/" ++ idTab ++ "/n1/all/v/" ++
    pyStrCell cid ++ "/p/all/d/v" ++ pyStrCell cid ++ "%20" ++ pyStrCell cdec

/-- `processar_dados_numericos` as invoked on a truthy decoded fetch
result, which the annotation types as a list but Python does not check:
non-list truthy values either pass the `len(...) < 2` guard (empty
DataFrame) or raise inside slicing / the DataFrame constructor, legs no
claim exercises. -/
def processarValorJson : Json → PyOutcome
  | Json.arr items => processar_dados_numericos items
  | Json.obj fs =>
    if fs.length < 2 then PyOutcome.table emptyTable
    else PyOutcome.unmodelled "slicing a dict raises TypeError"
  | Json.str s =>
    if s.length < 2 then PyOutcome.table emptyTable
    else PyOutcome.unmodelled "pd.DataFrame on a string slice"
  | _ => PyOutcome.unmodelled "len() of an unsized value raises TypeError"

/-- The body of the per-variable loop of
`orquestrar_captura_dados_numericos`: read the row's `Id`,
`DecimaisApresentacao` and `Nome` cells (a missing column raises), build
the URL, fetch it (`fetch` is the network oracle; `none` is the `None`
returned by `capturar_dados_api` on failure), and for a truthy response
normalize and write.  `error` is an uncaught exception; every raise
happens before any disk write, so the state is returned unchanged. -/
def processarVariavel (fetch : String → Option Json) (diskFails : String → Bool)
    (idTab : String) (cols : List Json) (row : List Cell) (fs : FS) :
    Except Unit (FS × List Event) :=
  match colValue cols row "Id", colValue cols row "DecimaisApresentacao",
        colValue cols row "Nome" with
  | Except.ok cid, Except.ok cdec, Except.ok _ =>
    let url := urlDados idTab cid cdec
    match fetch url with
    | none => Except.ok (fs, [Event.fetchFail url])
    | some j =>
      if truthy j then
        match processarValorJson j with
        | PyOutcome.table t =>
          let nome := "dados_numericos_" ++ pyStrCell cid ++ ".parquet"
          let w := gravar_arquivo_parquet diskFails t nome PASTA_SAIDA fs
          Except.ok (w.1, [Event.fetched url, Event.wrote w.2])
        | _ => Except.error ()
      else Except.ok (fs, [Event.fetched url, Event.skippedFalsy url])
  | _, _, _ => Except.error ()

/-- The `for _, variavel in df_variaveis.iterrows():` loop: rows in
DataFrame order; an uncaught exception in the body (never the fetch
failures or empty envelopes, which the body absorbs) aborts the loop,
recorded by the Boolean. -/
def processarVariaveis (fetch : String → Option Json) (diskFails : String → Bool)
    (idTab : String) (cols : List Json) :
    List (List Cell) → FS → FS × List Event × Bool
  | [], fs => (fs, [], false)
  | row :: rest, fs =>
    match processarVariavel fetch diskFails idTab cols row fs with
    | Except.error _ => (fs, [], true)
    | Except.ok (fs', evs) =>
      let r := processarVariaveis fetch diskFails idTab cols rest fs'
      (r.1, evs ++ r.2.1, r.2.2)

/-- The result of stage 2: final disk state, events, the
`id_tabela` value interpolated into the URLs (`none` when the stage
returned before computing it), and whether it raised. -/
structure Stage2Result where
  fs : FS
  events : List Event
  idUsed : Option String
  aborted : Bool

/-- `orquestrar_captura_dados_numericos(dados_metadados)`: reads the
variables parquet back from disk (its absence is the caught
`FileNotFoundError`: report and return), computes
`id_tabela = dados_metadados.get('Id', '1737')`, and runs the
per-variable loop.  `.get` on a non-dict document raises. -/
def orquestrar_captura_dados_numericos (fetch : String → Option Json)
    (diskFails : String → Bool) (dados_metadados : Json) (fs : FS) : Stage2Result :=
  match lookupFile fs (osJoin PASTA_SAIDA "variaveis.parquet") with
  | none => ⟨fs, [], none, false⟩
  | some t =>
    match dados_metadados with
    | Json.obj m =>
      let idTab := pyStr ((objGet m "Id").getD (Json.str "1737"))
      let r := processarVariaveis fetch diskFails idTab t.cols t.rows fs
      ⟨r.1, r.2.1, some idTab, r.2.2⟩
    | _ => ⟨fs, [], none, true⟩

/-- The observable outcome of `main()`: final disk state, the document
stage 2 was invoked with (`none` when it was not invoked), the
`id_tabela` stage 2 interpolated, and whether an exception escaped. -/
structure MainResult where
  fs : FS
  stage2 : Option Json
  idUsed : Option String
  aborted : Bool

/-- `main()`: run stage 1; run stage 2 exactly when the returned
`metadados` is truthy (stage 1 only ever returns `None` or a truthy
document).  An exception escaping stage 1 skips stage 2 by crashing. -/
def mainRun (fetchMeta : Option Json) (fetchSeries : String → Option Json)
    (diskFails : String → Bool) (fs0 : FS) : MainResult :=
  let s1 := orquestrar_captura_metadados fetchMeta diskFails fs0
  match s1.doc with
  | Except.error _ => ⟨s1.fs, none, none, true⟩
  | Except.ok none => ⟨s1.fs, none, none, false⟩
  | Except.ok (some metadados) =>
    if truthy metadados then
      let s2 := orquestrar_captura_dados_numericos fetchSeries diskFails metadados s1.fs
      ⟨s2.fs, some metadados, s2.idUsed, s2.aborted⟩
    else ⟨s1.fs, none, none, false⟩

/-- State-passing embedding of `extrair_lista_de_metadados`, whose body
contains no network call, no disk access and no print: it reads nothing
from and writes nothing to the world. -/
def extrairExec (dados_json : Json) (caminho_chaves : List String) (fs : FS) :
    FS × List Event × PyOutcome :=
  (fs, [], extrair_lista_de_metadados dados_json caminho_chaves)

/-- State-passing embedding of `processar_dados_numericos`; like
`extrairExec`, its body touches no outside state. -/
def processarExec (json_data : List Json) (fs : FS) : FS × List Event × PyOutcome :=
  (fs, [], processar_dados_numericos json_data)

/-- The two records of §8 property 3 of the spec: `{"A": [{"Id":1,"Nome":"foo"},{"Id":2,"Nome":"bar"}]}`. -/
def itemsC4 : List Json :=
  [Json.obj [("Id", Json.num 1), ("Nome", Json.str "foo")],
   Json.obj [("Id", Json.num 2), ("Nome", Json.str "bar")]]

/-- The document holding `itemsC4` under key `A`. -/
def docC4 : Json := Json.obj [("A", Json.arr itemsC4)]

/-- The rename mapping of §8 property 4 of the spec. -/
def mC3 : List (String × Json) := [("a", Json.str "ColA"), ("b", Json.str "ColB")]

/-- First data row of §8 property 4. -/
def rowC3a : Json := Json.obj [("a", Json.str "1"), ("b", Json.str "2")]

/-- Second data row of §8 property 4. -/
def rowC3b : Json := Json.obj [("a", Json.str "3"), ("b", Json.str "4")]

/-- Column labels of a well-formed variables table. -/
def colsC5 : List Json := [Json.str "Id", Json.str "DecimaisApresentacao", Json.str "Nome"]

/-- One well-formed variable row (id 63, 2 decimals, named IPCA). -/
def rowC5 : List Cell := [Cell.val (Json.num 63), Cell.val (Json.num 2), Cell.val (Json.str "IPCA")]

/-- One variable record for an end-to-end metadata document. -/
def varsC6 : List Json :=
  [Json.obj [("Id", Json.num 1), ("Nome", Json.str "v"), ("DecimaisApresentacao", Json.num 2)]]

/-- Field list of a metadata document that has `Variaveis` but no `Id`,
exercising the `'1737'` fallback. -/
def docC6fields : List (String × Json) := [("Variaveis", Json.arr varsC6)]

theorem addKeys_cons (acc : List String) (k' : String) (ks : List String) :
    addKeys acc (k' :: ks) = addKeys (if k' ∈ acc then acc else acc ++ [k']) ks := rfl

theorem mem_addKeys (ks : List String) :
    ∀ (acc : List String) (k : String), k ∈ addKeys acc ks ↔ k ∈ acc ∨ k ∈ ks := by
  induction ks with
  | nil => intro acc k; simp [addKeys]
  | cons k' ks ih =>
    intro acc k
    rw [addKeys_cons, ih]
    by_cases h : k' ∈ acc
    · simp only [h, if_true, List.mem_cons]
      constructor
      · rintro (h1 | h1)
        · exact Or.inl h1
        · exact Or.inr (Or.inr h1)
      · rintro (h1 | h1 | h1)
        · exact Or.inl h1
        · exact Or.inl (h1 ▸ h)
        · exact Or.inr h1
    · simp only [h, if_false, List.mem_append, List.mem_singleton, List.mem_cons]
      tauto

theorem nodup_addKeys (ks : List String) :
    ∀ acc : List String, acc.Nodup → (addKeys acc ks).Nodup := by
  induction ks with
  | nil => intro acc h; simpa [addKeys] using h
  | cons k' ks ih =>
    intro acc h
    rw [addKeys_cons]
    by_cases hk : k' ∈ acc
    · simpa [hk] using ih acc h
    · simp only [hk, if_false]
      refine ih _ (List.Nodup.append h (List.nodup_singleton k') ?_)
      simpa [List.disjoint_singleton] using hk

theorem mem_keysUnion_aux (items : List Json) :
    ∀ (acc : List String) (k : String),
      k ∈ items.foldl (fun a it => addKeys a (keysOf it)) acc ↔
        k ∈ acc ∨ ∃ it, it ∈ items ∧ k ∈ keysOf it := by
  induction items with
  | nil => intro acc k; simp
  | cons it items ih =>
    intro acc k
    rw [List.foldl_cons, ih, mem_addKeys]
    simp only [List.mem_cons]
    constructor
    · rintro ((h | h) | ⟨it', h1, h2⟩)
      · exact Or.inl h
      · exact Or.inr ⟨it, Or.inl rfl, h⟩
      · exact Or.inr ⟨it', Or.inr h1, h2⟩
    · rintro (h | ⟨it', h1 | h1, h2⟩)
      · exact Or.inl (Or.inl h)
      · exact Or.inl (Or.inr (h1 ▸ h2))
      · exact Or.inr ⟨it', h1, h2⟩

theorem nodup_keysUnion_aux (items : List Json) :
    ∀ acc : List String, acc.Nodup →
      (items.foldl (fun a it => addKeys a (keysOf it)) acc).Nodup := by
  induction items with
  | nil => intro acc h; simpa using h
  | cons it items ih =>
    intro acc h
    rw [List.foldl_cons]
    exact ih _ (nodup_addKeys (keysOf it) acc h)

theorem mem_keysUnion (items : List Json) (k : String) :
    k ∈ keysUnion items ↔ ∃ it, it ∈ items ∧ k ∈ keysOf it := by
  simpa using mem_keysUnion_aux items [] k

theorem nodup_keysUnion (items : List Json) : (keysUnion items).Nodup :=
  nodup_keysUnion_aux items [] List.nodup_nil

/-- C1: the claim says every intermediate miss of
`extrair_lista_de_metadados` — key absent, or the value reached not a
mapping when further descent is required — yields an empty table and
never raises.  The code evaluated at the document `{"A": 5}` with path
`["A", "B"]` instead raises `AttributeError` (`5` has no `.get`),
contradicting the function's own docstring, which promises an empty
DataFrame for an invalid path. -/
theorem extrair_raises_on_non_mapping_intermediate :
    extrair_lista_de_metadados (Json.obj [("A", Json.num 5)]) ["A", "B"] =
      PyOutcome.attributeError := rfl

/-- C2 counterexample: for the document `{"Meses": ["x", "y"]}` and path
`["Meses"]` the column is named `"Mee"` — `replace('s','')` removes the
interior `s` as well — not the `"Mese"` the claim's trailing-s rule
requires. -/
theorem extrair_column_name_counterexample :
    extrair_lista_de_metadados
        (Json.obj [("Meses", Json.arr [Json.str "x", Json.str "y"])]) ["Meses"] =
      PyOutcome.table ⟨[Json.str "Mee"],
                       [[Cell.val (Json.str "x")], [Cell.val (Json.str "y")]]⟩ ∧
    "Mee" ≠ "Mese" :=
  ⟨rfl, by decide⟩

/-- C2 (amended): for a non-empty key path whose terminal value is a
non-empty all-string list, `extrair_lista_de_metadados` returns a
single-column table whose rows are the list elements in source order and
whose column name is the last path key with every occurrence of the
lowercase letter `s` removed and then Python-capitalized (first
character uppercased, the remaining characters lowercased). -/
theorem extrair_all_strings_column_rule (d : Json) (path : List String) (k : String)
    (items : List Json) (hlast : path.getLast? = some k)
    (hnav : navegar d path = Except.ok (some (Json.arr items)))
    (hne : items.isEmpty = false) (hstr : items.all isStr = true) :
    extrair_lista_de_metadados d path =
      PyOutcome.table ⟨[Json.str (pyCapitalize (pyReplaceS k))],
                       items.map (fun it => [Cell.val it])⟩ := by
  unfold extrair_lista_de_metadados
  rw [hnav]
  simp [hne, hstr, hlast]

/-- Witness for C2 at the document `{"Notas": ["n1"]}` and path `["Notas"]`. -/
theorem extrair_all_strings_column_rule_witness :
    (["Notas"] : List String).getLast? = some "Notas" ∧
    navegar (Json.obj [("Notas", Json.arr [Json.str "n1"])]) ["Notas"] =
      Except.ok (some (Json.arr [Json.str "n1"])) ∧
    ([Json.str "n1"] : List Json).isEmpty = false ∧
    ([Json.str "n1"] : List Json).all isStr = true ∧
    extrair_lista_de_metadados (Json.obj [("Notas", Json.arr [Json.str "n1"])]) ["Notas"] =
      PyOutcome.table ⟨[Json.str (pyCapitalize (pyReplaceS "Notas"))],
                       [Json.str "n1"].map (fun it => [Cell.val it])⟩ :=
  ⟨rfl, rfl, rfl, rfl,
   extrair_all_strings_column_rule (Json.obj [("Notas", Json.arr [Json.str "n1"])])
     ["Notas"] "Notas" [Json.str "n1"] rfl rfl rfl rfl⟩

/-- C7: a series envelope with fewer than two elements (empty, or just
the column-name mapping) makes `processar_dados_numericos` return the
empty table. -/
theorem processar_short_envelope_empty (json_data : List Json)
    (h : json_data.length < 2) :
    processar_dados_numericos json_data = PyOutcome.table emptyTable := by
  match json_data with
  | [] => rfl
  | [_] => rfl
  | _ :: _ :: t => exact absurd h (by simp [List.length_cons])

/-- Witness for C7 at the empty envelope. -/
theorem processar_short_envelope_empty_witness :
    ([] : List Json).length < 2 ∧
    processar_dados_numericos [] = PyOutcome.table emptyTable :=
  ⟨by decide, processar_short_envelope_empty [] (by decide)⟩

/-- C8: for every empty DataFrame — and any file name, directory and
disk condition — `gravar_arquivo_parquet` leaves the filesystem
untouched and reports a skip, not a failure. -/
theorem gravar_empty_table_skips (diskFails : String → Bool) (df : Table)
    (nome pasta : String) (fs : FS) (h : df.isEmptyDF = true) :
    gravar_arquivo_parquet diskFails df nome pasta fs = (fs, GravarOutcome.skip nome) := by
  unfold gravar_arquivo_parquet
  simp [h]

/-- Witness for C8: the empty table, a directory on which every write
would fail, and a non-empty starting filesystem. -/
theorem gravar_empty_table_skips_witness :
    emptyTable.isEmptyDF = true ∧
    gravar_arquivo_parquet (fun _ => true) emptyTable "f.parquet" "no/such/dir"
        [(osJoin PASTA_SAIDA "variaveis.parquet", emptyTable)] =
      ([(osJoin PASTA_SAIDA "variaveis.parquet", emptyTable)], GravarOutcome.skip "f.parquet") :=
  ⟨rfl, gravar_empty_table_skips (fun _ => true) emptyTable "f.parquet" "no/such/dir"
    [(osJoin PASTA_SAIDA "variaveis.parquet", emptyTable)] rfl⟩

/-- C10: `extrair_lista_de_metadados` and `processar_dados_numericos`
are pure functions of their arguments: their state-passing embeddings
return the filesystem unchanged, perform no observable event, and their
results do not depend on the state they were started in (the source
bodies contain no network call, no disk access and no mutation of their
inputs, which the embedding renders as immutable values). -/
theorem extraction_and_normalization_pure (d : Json) (path : List String)
    (json_data : List Json) (fs fs' : FS) :
    extrairExec d path fs = (fs, [], extrair_lista_de_metadados d path) ∧
    processarExec json_data fs = (fs, [], processar_dados_numericos json_data) ∧
    (extrairExec d path fs).2.2 = (extrairExec d path fs').2.2 ∧
    (processarExec json_data fs).2.2 = (processarExec json_data fs').2.2 :=
  ⟨rfl, rfl, rfl, rfl⟩

/-- C9: when the metadata fetch succeeds but decodes to a falsy value
(such as `{}` or `[]`), `orquestrar_captura_metadados` returns `None`
without attempting any extraction or write, and `main` therefore skips
the series stage even though no fetch or decode failure occurred. -/
theorem metadata_falsy_json_returns_none (j : Json) (fetchSeries : String → Option Json)
    (diskFails : String → Bool) (fs : FS) (h : truthy j = false) :
    orquestrar_captura_metadados (some j) diskFails fs = ⟨fs, [], Except.ok none⟩ ∧
    (mainRun (some j) fetchSeries diskFails fs).stage2 = none := by
  constructor
  · unfold orquestrar_captura_metadados
    simp [h]
  · unfold mainRun orquestrar_captura_metadados
    simp [h]

/-- Witness for C9 at the empty JSON object. -/
theorem metadata_falsy_json_returns_none_witness :
    truthy (Json.obj []) = false ∧
    (orquestrar_captura_metadados (some (Json.obj [])) (fun _ => false) [] =
        ⟨[], [], Except.ok none⟩ ∧
      (mainRun (some (Json.obj [])) (fun _ => none) (fun _ => false) []).stage2 = none) :=
  ⟨rfl, metadata_falsy_json_returns_none (Json.obj []) (fun _ => none) (fun _ => false) [] rfl⟩

/-- C3 counterexample: for the envelope
`[{"a":"ColA","b":"ColB"}, {"a":"1"}]` the result has the single column
`ColA`: the column set comes from the union of the row keys, so the
identifier `b`, present only in element 0, yields no (missing-valued)
`ColB` column, contrary to the claim that the column set is exactly the
display names of element 0. -/
theorem processar_columns_counterexample :
    processar_dados_numericos
        [Json.obj [("a", Json.str "ColA"), ("b", Json.str "ColB")],
         Json.obj [("a", Json.str "1")]] =
      PyOutcome.table ⟨[Json.str "ColA"], [[Cell.val (Json.str "1")]]⟩ ∧
    Json.str "ColB" ∉ ([Json.str "ColA"] : List Json) := by
  refine ⟨rfl, ?_⟩
  simp only [List.mem_singleton, Json.str.injEq]
  decide

/-- C3 (amended): for an envelope whose element 0 is a mapping and whose
elements 1..N are a non-empty list of mappings,
`processar_dados_numericos` returns the table whose columns are the
union of the keys of elements 1..N in first-seen order, each renamed to
its element-0 display name when the identifier is present there (and
kept raw otherwise), and whose rows are elements 1..N in order, a key
absent from a given row yielding a missing value for that cell. -/
theorem processar_renames_union_of_row_keys (m : List (String × Json)) (r : Json)
    (rest : List Json) (hobj : (r :: rest).all isObj = true) :
    processar_dados_numericos (Json.obj m :: r :: rest) =
      PyOutcome.table
        ⟨(keysUnion (r :: rest)).map (fun k => (objGet m k).getD (Json.str k)),
         (r :: rest).map (fun it => (keysUnion (r :: rest)).map (fun k => cellOf it k))⟩ := by
  unfold processar_dados_numericos
  simp [hobj, pdRecords, renameLabel, List.map_map, Function.comp]

/-- Witness for C3 at the envelope of §8 property 4 of the spec. -/
theorem processar_renames_union_of_row_keys_witness :
    (rowC3a :: [rowC3b]).all isObj = true ∧
    processar_dados_numericos (Json.obj mC3 :: rowC3a :: [rowC3b]) =
      PyOutcome.table
        ⟨(keysUnion (rowC3a :: [rowC3b])).map (fun k => (objGet mC3 k).getD (Json.str k)),
         (rowC3a :: [rowC3b]).map (fun it =>
           (keysUnion (rowC3a :: [rowC3b])).map (fun k => cellOf it k))⟩ :=
  ⟨rfl, processar_renames_union_of_row_keys mC3 rowC3a [rowC3b] rfl⟩

/-- C4: a key path whose terminal value is a non-empty list of mappings
yields the records table: one column per distinct key observed across
the mappings (no duplicates, a key is a column exactly when some mapping
carries it, collected in first-seen order by `keysUnion`), rows in input
order, and a missing value for each field a mapping lacks. -/
theorem extrair_list_of_mappings_table (d : Json) (path : List String) (items : List Json)
    (hnav : navegar d path = Except.ok (some (Json.arr items)))
    (hne : items.isEmpty = false) (hobj : items.all isObj = true) :
    extrair_lista_de_metadados d path =
      PyOutcome.table ⟨(keysUnion items).map Json.str,
                       items.map (fun it => (keysUnion items).map (fun k => cellOf it k))⟩ ∧
    (keysUnion items).Nodup ∧
    (∀ k, k ∈ keysUnion items ↔ ∃ it, it ∈ items ∧ k ∈ keysOf it) := by
  refine ⟨?_, nodup_keysUnion items, fun k => mem_keysUnion items k⟩
  have hstr : items.all isStr = false := by
    cases items with
    | nil => simp at hne
    | cons a l => cases a <;> simp_all [List.all_cons, isStr, isObj]
  unfold extrair_lista_de_metadados
  rw [hnav]
  simp [hne, hstr, hobj, pdRecords]

/-- Witness for C4 at the document of §8 property 3 of the spec. -/
theorem extrair_list_of_mappings_table_witness :
    navegar docC4 ["A"] = Except.ok (some (Json.arr itemsC4)) ∧
    itemsC4.isEmpty = false ∧
    itemsC4.all isObj = true ∧
    (extrair_lista_de_metadados docC4 ["A"] =
        PyOutcome.table ⟨(keysUnion itemsC4).map Json.str,
                         itemsC4.map (fun it => (keysUnion itemsC4).map (fun k => cellOf it k))⟩ ∧
      (keysUnion itemsC4).Nodup ∧
      (∀ k, k ∈ keysUnion itemsC4 ↔ ∃ it, it ∈ itemsC4 ∧ k ∈ keysOf it)) :=
  ⟨rfl, rfl, rfl, extrair_list_of_mappings_table docC4 ["A"] itemsC4 rfl rfl rfl⟩

theorem processarVariaveis_cons_ok (fetch : String → Option Json)
    (diskFails : String → Bool) (idTab : String) (cols : List Json)
    (row : List Cell) (post : List (List Cell)) (fs : FS) (evs : List Event)
    (h : processarVariavel fetch diskFails idTab cols row fs = Except.ok (fs, evs)) :
    processarVariaveis fetch diskFails idTab cols (row :: post) fs =
      ((processarVariaveis fetch diskFails idTab cols post fs).1,
       evs ++ (processarVariaveis fetch diskFails idTab cols post fs).2.1,
       (processarVariaveis fetch diskFails idTab cols post fs).2.2) := by
  simp only [processarVariaveis, h]

/-- C5: a variable whose fetch fails (`capturar_dados_api` returns
`None`) or whose envelope is the empty list contributes only its own
log events, leaves the disk untouched, raises nothing, and every
subsequent variable of the table is processed exactly as it would have
been without it, in row order. -/
theorem series_variable_failure_isolated (fetch : String → Option Json)
    (diskFails : String → Bool) (idTab : String) (cols : List Json)
    (row : List Cell) (post : List (List Cell)) (fs : FS) (cid cdec cnome : Cell)
    (hid : colValue cols row "Id" = Except.ok cid)
    (hdec : colValue cols row "DecimaisApresentacao" = Except.ok cdec)
    (hnome : colValue cols row "Nome" = Except.ok cnome)
    (hfail : fetch (urlDados idTab cid cdec) = none ∨
             fetch (urlDados idTab cid cdec) = some (Json.arr [])) :
    ∃ evs : List Event,
      processarVariavel fetch diskFails idTab cols row fs = Except.ok (fs, evs) ∧
      processarVariaveis fetch diskFails idTab cols (row :: post) fs =
        ((processarVariaveis fetch diskFails idTab cols post fs).1,
         evs ++ (processarVariaveis fetch diskFails idTab cols post fs).2.1,
         (processarVariaveis fetch diskFails idTab cols post fs).2.2) := by
  obtain ⟨evs, h1⟩ :
      ∃ evs, processarVariavel fetch diskFails idTab cols row fs = Except.ok (fs, evs) := by
    rcases hfail with h | h
    · refine ⟨[Event.fetchFail (urlDados idTab cid cdec)], ?_⟩
      simp [processarVariavel, hid, hdec, hnome, h]
    · refine ⟨[Event.fetched (urlDados idTab cid cdec),
               Event.skippedFalsy (urlDados idTab cid cdec)], ?_⟩
      simp [processarVariavel, hid, hdec, hnome, h, truthy]
  exact ⟨evs, h1, processarVariaveis_cons_ok fetch diskFails idTab cols row post fs evs h1⟩

/-- Witness for C5: a well-formed variable row whose fetch fails, with
one further row behind it. -/
theorem series_variable_failure_isolated_witness :
    colValue colsC5 rowC5 "Id" = Except.ok (Cell.val (Json.num 63)) ∧
    colValue colsC5 rowC5 "DecimaisApresentacao" = Except.ok (Cell.val (Json.num 2)) ∧
    colValue colsC5 rowC5 "Nome" = Except.ok (Cell.val (Json.str "IPCA")) ∧
    ((fun _ : String => (none : Option Json))
        (urlDados "1737" (Cell.val (Json.num 63)) (Cell.val (Json.num 2))) = none ∨
      (fun _ : String => (none : Option Json))
        (urlDados "1737" (Cell.val (Json.num 63)) (Cell.val (Json.num 2))) =
        some (Json.arr [])) ∧
    (∃ evs : List Event,
      processarVariavel (fun _ => none) (fun _ => false) "1737" colsC5 rowC5 [] =
        Except.ok ([], evs) ∧
      processarVariaveis (fun _ => none) (fun _ => false) "1737" colsC5 (rowC5 :: [rowC5]) [] =
        ((processarVariaveis (fun _ => none) (fun _ => false) "1737" colsC5 [rowC5] []).1,
         evs ++ (processarVariaveis (fun _ => none) (fun _ => false) "1737" colsC5 [rowC5] []).2.1,
         (processarVariaveis (fun _ => none) (fun _ => false) "1737" colsC5 [rowC5] []).2.2)) :=
  ⟨rfl, rfl, rfl, Or.inl rfl,
   series_variable_failure_isolated (fun _ => none) (fun _ => false) "1737" colsC5 rowC5
     [rowC5] [] (Cell.val (Json.num 63)) (Cell.val (Json.num 2)) (Cell.val (Json.str "IPCA"))
     rfl rfl rfl (Or.inl rfl)⟩

theorem stage1_doc_truthy (fetchMeta : Option Json) (diskFails : String → Bool)
    (fs : FS) (j : Json)
    (h : (orquestrar_captura_metadados fetchMeta diskFails fs).doc = Except.ok (some j)) :
    truthy j = true := by
  cases fetchMeta with
  | none => simp [orquestrar_captura_metadados] at h
  | some j' =>
    by_cases ht : truthy j'
    · simp only [orquestrar_captura_metadados, ht, if_true] at h
      split at h
      · exact absurd h (by simp)
      · simp only [Except.ok.injEq, Option.some.injEq] at h
        exact h ▸ ht
    · simp [orquestrar_captura_metadados, ht] at h

/-- C6: `main` invokes the series stage exactly when the metadata stage
returns a present document, and — when the variables file is on disk so
the stage reaches its identifier computation — the `id_tabela` the
stage interpolates is the document's `Id` field, falling back to the
string `"1737"` when the document lacks it. -/
theorem main_runs_series_iff_metadata_present (fetchMeta : Option Json)
    (fetchSeries : String → Option Json) (diskFails : String → Bool) (fs0 : FS) :
    ((mainRun fetchMeta fetchSeries diskFails fs0).stage2.isSome ↔
      ∃ j, (orquestrar_captura_metadados fetchMeta diskFails fs0).doc =
        Except.ok (some j)) ∧
    (∀ m t, (mainRun fetchMeta fetchSeries diskFails fs0).stage2 = some (Json.obj m) →
      lookupFile (orquestrar_captura_metadados fetchMeta diskFails fs0).fs
          (osJoin PASTA_SAIDA "variaveis.parquet") = some t →
      (mainRun fetchMeta fetchSeries diskFails fs0).idUsed =
        some (pyStr ((objGet m "Id").getD (Json.str "1737")))) := by
  rcases hdoc : (orquestrar_captura_metadados fetchMeta diskFails fs0).doc with e | md
  · constructor
    · simp [mainRun, hdoc]
    · intro m t h1 _
      simp [mainRun, hdoc] at h1
  · cases md with
    | none =>
      constructor
      · simp [mainRun, hdoc]
      · intro m t h1 _
        simp [mainRun, hdoc] at h1
    | some j =>
      have ht : truthy j = true := stage1_doc_truthy fetchMeta diskFails fs0 j hdoc
      constructor
      · simp only [mainRun, hdoc, ht, if_true]
        exact ⟨fun _ => ⟨j, rfl⟩, fun _ => rfl⟩
      · intro m t h1 h2
        simp only [mainRun, hdoc, ht, if_true] at h1 ⊢
        simp only [Option.some.injEq] at h1
        subst h1
        simp [orquestrar_captura_dados_numericos, h2]

/-- Witness for C6: a truthy metadata document carrying `Variaveis` but
no `Id`, run from an empty disk, so the metadata stage itself writes the
variables file and the series stage falls back to identifier `"1737"`. -/
theorem main_runs_series_iff_metadata_present_witness :
    (mainRun (some (Json.obj docC6fields)) (fun _ => none) (fun _ => false) []).stage2 =
      some (Json.obj docC6fields) ∧
    lookupFile
        (orquestrar_captura_metadados (some (Json.obj docC6fields)) (fun _ => false) []).fs
        (osJoin PASTA_SAIDA "variaveis.parquet") = some (pdRecords varsC6) ∧
    (mainRun (some (Json.obj docC6fields)) (fun _ => none) (fun _ => false) []).idUsed =
      some (pyStr ((objGet docC6fields "Id").getD (Json.str "1737"))) :=
  ⟨rfl, rfl,
   (main_runs_series_iff_metadata_present (some (Json.obj docC6fields)) (fun _ => none)
       (fun _ => false) []).2 docC6fields (pdRecords varsC6) rfl rfl⟩
